import Mathlib

/-! Verification of the AuthState Manager in `src/lib/supabaseAuth.ts`.

The manager is embedded shallowly: the singleton's mutable fields
(`authState`, `listeners`) become a `ManagerState` record threaded through
the operations; every call into the Auth Provider Client or the Profile
Store is modelled by passing the response of that call as an explicit
argument (the environment's answer); listener callbacks are identified by
opaque labels (`Nat`) and a notification is recorded as the pair of the
label and the state delivered to it.  JavaScript truthiness on the string
and nullable-string fields involved (`x || y`) is modelled by `strOr` /
`updOrS` / `updOrOS`, with the empty string playing the role of both
`null`/`undefined` and `""` for plain string fields (the `||` chains in
the source collapse the two anyway), and `Option` modelling
`string | null` fields. -/

namespace SupabaseAuth

/-- JavaScript `a || b` on strings: the empty string is falsy. -/
def strOr (a b : String) : String := if a = "" then b else a

/-- The `AuthUser` interface of `supabaseAuth.ts`. -/
structure AuthUser where
  id : String
  email : String
  name : String
  company : String
  position : String
  phone : String
  role : String
  department : Option String
  avatar_url : Option String
deriving Repr, DecidableEq

/-- The `AuthState` interface of `supabaseAuth.ts`. -/
structure AuthState where
  user : Option AuthUser
  isAuthenticated : Bool
  isOnboardingComplete : Bool
deriving Repr, DecidableEq

/-- The initial value of the private `authState` field. -/
def initialAuthState : AuthState :=
  { user := none, isAuthenticated := false, isOnboardingComplete := false }

/-- The metadata map carried by a session user (`user.user_metadata`);
absent entries are modelled by the empty string, which the source's
`|| ''` chains treat identically. -/
structure UserMetadata where
  full_name : String
  company : String
  position : String
  phone : String
deriving Repr, DecidableEq

/-- A session user as handed over by the Auth Provider Client;
`email` may be absent, modelled by the empty string (the source only
reads it through `||`). -/
structure SessionUser where
  id : String
  email : String
  user_metadata : UserMetadata
deriving Repr, DecidableEq

/-- An error value returned by the provider or the store. -/
structure SupaError where
  code : String
  message : String
deriving Repr, DecidableEq

/-- A row of the `profiles` table. -/
structure ProfileRecord where
  id : String
  email : String
  full_name : String
  company : String
  position : String
  phone : String
  role : String
  department : Option String
  avatar_url : Option String
deriving Repr, DecidableEq

/-- The `{ data, error }` pair returned by
`from('profiles').select('*').eq('id', ...).single()`. -/
structure SingleResult where
  data : Option ProfileRecord
  error : Option SupaError
deriving Repr, DecidableEq

/-- The mutable fields of the `SupabaseAuth` singleton. -/
structure ManagerState where
  authState : AuthState
  listeners : List Nat
deriving Repr, DecidableEq

/-- The singleton as constructed at process start. -/
def initialManager : ManagerState :=
  { authState := initialAuthState, listeners := [] }

/-- `notifyListeners`: every registered listener is invoked, in list
order, with the current state; a notification is recorded as
(listener label, state delivered). -/
def notifyListeners (m : ManagerState) : List (Nat × AuthState) :=
  m.listeners.map (fun l => (l, m.authState))

/-- The guard `error && error.code !== 'PGRST116'` of
`setUserFromSession`. -/
def isFatalProfileError (q : SingleResult) : Bool :=
  match q.error with
  | some e => e.code ≠ "PGRST116"
  | none => false

/-- The `AuthUser` built by `setUserFromSession` when a profile row was
found. -/
def authUserFromProfile (profile : ProfileRecord) (user : SessionUser) : AuthUser :=
  { id := profile.id
    email := profile.email
    name := strOr (strOr profile.full_name user.email) ""
    company := strOr profile.company ""
    position := strOr profile.position ""
    phone := strOr profile.phone ""
    role := profile.role
    department := profile.department
    avatar_url := profile.avatar_url }

/-- The `AuthUser` built by `setUserFromSession` when no profile row
exists (session metadata only). -/
def authUserFromSession (user : SessionUser) : AuthUser :=
  { id := user.id
    email := strOr user.email ""
    name := strOr (strOr user.user_metadata.full_name user.email) ""
    company := strOr user.user_metadata.company ""
    position := strOr user.user_metadata.position ""
    phone := strOr user.user_metadata.phone ""
    role := "user"
    department := none
    avatar_url := none }

/-- The state and the notifications produced by an operation. -/
structure ResolveOutcome where
  state : ManagerState
  deliveries : List (Nat × AuthState)
deriving Repr, DecidableEq

/-- `setUserFromSession(user)`: queries the profile row for `user.id`
(its response `q` is the environment's answer), aborts on a fatal error,
otherwise derives the new `AuthState` from the row or, failing that, from
the session metadata, stores it and notifies the listeners. -/
def setUserFromSession (m : ManagerState) (user : SessionUser) (q : SingleResult) :
    ResolveOutcome :=
  if isFatalProfileError q then { state := m, deliveries := [] }
  else
    let newAuth : AuthState :=
      match q.data with
      | some profile =>
        { user := some (authUserFromProfile profile user)
          isAuthenticated := true
          isOnboardingComplete := true }
      | none =>
        { user := some (authUserFromSession user)
          isAuthenticated := true
          isOnboardingComplete := false }
    let m2 := { m with authState := newAuth }
    { state := m2, deliveries := notifyListeners m2 }

/-- `clearAuthState()`: resets the state to the empty default and
notifies the listeners. -/
def clearAuthState (m : ManagerState) : ResolveOutcome :=
  let m2 := { m with authState := initialAuthState }
  { state := m2, deliveries := notifyListeners m2 }

/-- `subscribe(listener)`: appends the listener to the list. -/
def subscribe (m : ManagerState) (listener : Nat) : ManagerState :=
  { m with listeners := m.listeners ++ [listener] }

/-- The closure returned by `subscribe`:
`this.listeners = this.listeners.filter(l => l !== listener)`. -/
def unsubscribe (m : ManagerState) (listener : Nat) : ManagerState :=
  { m with listeners := m.listeners.filter (fun l => l ≠ listener) }

/-- A `{ success, error? }` result of `login` / `register` / `logout`. -/
structure SimpleResult where
  success : Bool
  error : Option String := none
deriving Repr, DecidableEq

/-- The `data` part of a provider sign-in / sign-up response. -/
structure SignInData where
  user : Option SessionUser
deriving Repr, DecidableEq

/-- A provider sign-in / sign-up response `{ data, error }`. -/
structure SignInResponse where
  data : SignInData
  error : Option SupaError
deriving Repr, DecidableEq

/-- Outcome of `login` / `register` / `logout`. -/
structure OpOutcome where
  state : ManagerState
  deliveries : List (Nat × AuthState)
  result : SimpleResult
deriving Repr, DecidableEq

/-- `login(email, password)`: `resp` is the provider's answer to
`signInWithPassword`, `q` the profile query answer used by the subsequent
`setUserFromSession`. -/
def login (m : ManagerState) (resp : SignInResponse) (q : SingleResult) : OpOutcome :=
  match resp.error with
  | some e => { state := m, deliveries := [], result := { success := false, error := some e.message } }
  | none =>
    match resp.data.user with
    | some u =>
      let r := setUserFromSession m u q
      { state := r.state, deliveries := r.deliveries, result := { success := true } }
    | none =>
      { state := m, deliveries := [], result := { success := false, error := some "ログインに失敗しました" } }

/-- The argument record of `register`. -/
structure RegisterData where
  email : String
  password : String
  name : String
  company : String
  position : String
  phone : String
  department : String
deriving Repr, DecidableEq

/-- `register(userData)`: `resp` is the provider's answer to `signUp`,
`insertError` the Profile Store's answer to the profile insert (the
source only logs it), `q` the profile query answer used by the subsequent
`setUserFromSession`. -/
def register (m : ManagerState) (userData : RegisterData) (resp : SignInResponse)
    (insertError : Option SupaError) (q : SingleResult) : OpOutcome :=
  match resp.error with
  | some e => { state := m, deliveries := [], result := { success := false, error := some e.message } }
  | none =>
    match resp.data.user with
    | some u =>
      let r := setUserFromSession m u q
      { state := r.state, deliveries := r.deliveries, result := { success := true } }
    | none =>
      { state := m, deliveries := [], result := { success := false, error := some "登録に失敗しました" } }

/-- `logout()`: `signOutError` is the provider's answer to `signOut`. -/
def logout (m : ManagerState) (signOutError : Option SupaError) : OpOutcome :=
  match signOutError with
  | some e => { state := m, deliveries := [], result := { success := false, error := some e.message } }
  | none =>
    let r := clearAuthState m
    { state := r.state, deliveries := r.deliveries, result := { success := true } }

/-- `Partial<AuthUser>`: each field is either absent (`none`) or present
with a value.  For the two nullable fields a present value is itself an
`Option String` (`some none` models an explicit `null`). -/
structure AuthUserUpdate where
  id : Option String := none
  email : Option String := none
  name : Option String := none
  company : Option String := none
  position : Option String := none
  phone : Option String := none
  role : Option String := none
  department : Option (Option String) := none
  avatar_url : Option (Option String) := none
deriving Repr, DecidableEq

/-- `updates.f || current.f` for a plain string field: an absent field
and a present empty string are both falsy. -/
def updOrS (u : Option String) (cur : String) : String :=
  match u with
  | none => cur
  | some s => if s = "" then cur else s

/-- `updates.f || current.f` for a nullable string field: absent,
explicit `null` and the empty string are all falsy. -/
def updOrOS (u : Option (Option String)) (cur : Option String) : Option String :=
  match u with
  | none => cur
  | some none => cur
  | some (some s) => if s = "" then cur else some s

/-- The record handed to `from('profiles').update({...})`: exactly the
four merged fields plus the `updated_at` stamp. -/
structure ProfileUpdatePayload where
  full_name : String
  role : String
  department : Option String
  avatar_url : Option String
  updated_at : String
deriving Repr, DecidableEq

/-- The payload built by `updateProfile` from the current user and the
partial updates (`new Date().toISOString()` is the parameter `now`). -/
def profileUpdatePayload (currentUser : AuthUser) (updates : AuthUserUpdate)
    (now : String) : ProfileUpdatePayload :=
  { full_name := updOrS updates.name currentUser.name
    role := updOrS updates.role currentUser.role
    department := updOrOS updates.department currentUser.department
    avatar_url := updOrOS updates.avatar_url currentUser.avatar_url
    updated_at := now }

/-- The spread `{ ...currentUser, ...updates }`: every field present in
`updates` overrides, every absent field keeps the current value. -/
def mergeUser (currentUser : AuthUser) (updates : AuthUserUpdate) : AuthUser :=
  { id := updates.id.getD currentUser.id
    email := updates.email.getD currentUser.email
    name := updates.name.getD currentUser.name
    company := updates.company.getD currentUser.company
    position := updates.position.getD currentUser.position
    phone := updates.phone.getD currentUser.phone
    role := updates.role.getD currentUser.role
    department := updates.department.getD currentUser.department
    avatar_url := updates.avatar_url.getD currentUser.avatar_url }

/-- A `{ success, data?, error? }` result of `updateProfile`. -/
structure UpdateResult where
  success : Bool
  data : Option AuthUser := none
  error : Option String := none
deriving Repr, DecidableEq

/-- Outcome of `updateProfile`: new state, notifications, result, and
the payload sent to the Profile Store (`none` when no update call was
made because no user is present). -/
structure UpdateOutcome where
  state : ManagerState
  deliveries : List (Nat × AuthState)
  result : UpdateResult
  payload : Option ProfileUpdatePayload
deriving Repr, DecidableEq

/-- `updateProfile(updates)`: `storeError` is the Profile Store's answer
to the update call, `now` the timestamp stamped into the payload. -/
def updateProfile (m : ManagerState) (updates : AuthUserUpdate)
    (storeError : Option SupaError) (now : String) : UpdateOutcome :=
  match m.authState.user with
  | none =>
    { state := m, deliveries := []
      result := { success := false, error := some "ユーザーが見つかりません" }
      payload := none }
  | some currentUser =>
    let payload := profileUpdatePayload currentUser updates now
    match storeError with
    | some e =>
      { state := m, deliveries := []
        result := { success := false, error := some e.message }
        payload := some payload }
    | none =>
      let updatedUser := mergeUser currentUser updates
      let m2 := { m with authState := { m.authState with user := some updatedUser } }
      { state := m2, deliveries := notifyListeners m2
        result := { success := true, data := some updatedUser }
        payload := some payload }

/-- `getCurrentUser()`. -/
def getCurrentUser (m : ManagerState) : Option AuthUser := m.authState.user

/-- `isAuthenticated()`. -/
def isAuthenticatedAccessor (m : ManagerState) : Bool := m.authState.isAuthenticated

/-- `getAuthState()`. -/
def getAuthState (m : ManagerState) : AuthState := m.authState

/-- One invocation of a manager operation, with the environment's
answers baked in. -/
inductive Op where
  | resolve (u : SessionUser) (q : SingleResult)
  | clear
  | loginOp (resp : SignInResponse) (q : SingleResult)
  | registerOp (d : RegisterData) (resp : SignInResponse) (ie : Option SupaError) (q : SingleResult)
  | logoutOp (e : Option SupaError)
  | updateOp (u : AuthUserUpdate) (se : Option SupaError) (now : String)
  | subscribeOp (l : Nat)
  | unsubscribeOp (l : Nat)
deriving Repr, DecidableEq

/-- Runs one operation: the new manager state and the notifications it
sent. -/
def applyOp (m : ManagerState) : Op → ManagerState × List (Nat × AuthState)
  | .resolve u q => ((setUserFromSession m u q).state, (setUserFromSession m u q).deliveries)
  | .clear => ((clearAuthState m).state, (clearAuthState m).deliveries)
  | .loginOp resp q => ((login m resp q).state, (login m resp q).deliveries)
  | .registerOp d resp ie q => ((register m d resp ie q).state, (register m d resp ie q).deliveries)
  | .logoutOp e => ((logout m e).state, (logout m e).deliveries)
  | .updateOp u se now => ((updateProfile m u se now).state, (updateProfile m u se now).deliveries)
  | .subscribeOp l => (subscribe m l, [])
  | .unsubscribeOp l => (unsubscribe m l, [])

/-- Runs a sequence of operations, collecting all notifications in
order. -/
def runOps (m : ManagerState) : List Op → ManagerState × List (Nat × AuthState)
  | [] => (m, [])
  | op :: rest =>
    let r := applyOp m op
    let r2 := runOps r.1 rest
    (r2.1, r.2 ++ r2.2)

/-- The AuthState invariant: authenticated exactly when a user is
present. -/
def authInvariant (s : AuthState) : Prop := s.isAuthenticated = s.user.isSome

/-- Whether an operation is a `subscribe` of the given listener. -/
def subscribesListener (l : Nat) : Op → Bool
  | .subscribeOp l2 => l2 = l
  | _ => false

/-- A result field follows merge semantics: a present update value wins,
an absent one keeps the current value. -/
def mergesField {α : Type} (upd : Option α) (cur res : α) : Prop :=
  (upd = none → res = cur) ∧ ∀ v, upd = some v → res = v

/-- A persisted string field: an absent update keeps the current value, a
present non-empty update wins (the present-but-empty case is settled
separately). -/
def persistsStringField (upd : Option String) (cur res : String) : Prop :=
  (upd = none → res = cur) ∧ ∀ v, upd = some v → v ≠ "" → res = v

/-- A persisted nullable field: an absent update keeps the current value,
a present non-empty string wins (explicit `null` and `""` are settled
separately). -/
def persistsNullableField (upd : Option (Option String)) (cur res : Option String) : Prop :=
  (upd = none → res = cur) ∧ ∀ v, upd = some (some v) → v ≠ "" → res = some v

/-- Concrete session user whose metadata has no name but whose session
carries an email. -/
def sessionUserNoMetaName : SessionUser :=
  { id := "u1", email := "a@x.com"
    user_metadata := { full_name := "", company := "", position := "", phone := "" } }

/-- Concrete profile-query answer for a missing row: the not-found code
with no data. -/
def notFoundResult : SingleResult :=
  { data := none, error := some { code := "PGRST116", message := "no rows returned" } }

/-- Concrete registration data. -/
def regDataC8 : RegisterData :=
  { email := "b@x.com", password := "pw", name := "Bob", company := "ACME"
    position := "dev", phone := "1", department := "eng" }

/-- Concrete session user returned by a successful sign-up. -/
def sessionUserC8 : SessionUser :=
  { id := "u2", email := "b@x.com"
    user_metadata := { full_name := "Bob", company := "ACME", position := "dev", phone := "1" } }

/-- Concrete Profile Store answer rejecting the profile insert. -/
def insertErrorC8 : SupaError := { code := "42501", message := "permission denied" }

/-- Concrete fatal profile-query answer (an error other than
not-found). -/
def fatalQueryC8 : SingleResult :=
  { data := none, error := some { code := "500", message := "internal" } }

/-- Concrete authenticated user with non-empty profile fields. -/
def curUserC10 : AuthUser :=
  { id := "u3", email := "c@x.com", name := "Ann", company := "ACME", position := "cfo"
    phone := "2", role := "manager", department := some "Sales", avatar_url := some "a.png" }

/-- Concrete partial update whose fields are present but falsy. -/
def falsyUpdatesC10 : AuthUserUpdate :=
  { name := some "", department := some none, avatar_url := some none }

lemma strOr_empty_right (a : String) : strOr a "" = a := by
  by_cases h : a = "" <;> simp [strOr, h]

lemma setUserFromSession_inv (m : ManagerState) (u : SessionUser) (q : SingleResult)
    (h : authInvariant m.authState) :
    authInvariant (setUserFromSession m u q).state.authState := by
  unfold setUserFromSession
  by_cases hf : isFatalProfileError q = true
  · simpa [hf] using h
  · cases hd : q.data <;> simp [hf, hd, authInvariant]

lemma applyOp_inv (m : ManagerState) (op : Op) (h : authInvariant m.authState) :
    authInvariant ((applyOp m op).1).authState := by
  cases op with
  | resolve u q => exact setUserFromSession_inv m u q h
  | clear => simp [applyOp, clearAuthState, authInvariant, initialAuthState]
  | loginOp resp q =>
    unfold applyOp login
    cases he : resp.error with
    | some e => simpa [he] using h
    | none =>
      cases hu : resp.data.user with
      | none => simpa [he, hu] using h
      | some u => simpa [he, hu] using setUserFromSession_inv m u q h
  | registerOp d resp ie q =>
    unfold applyOp register
    cases he : resp.error with
    | some e => simpa [he] using h
    | none =>
      cases hu : resp.data.user with
      | none => simpa [he, hu] using h
      | some u => simpa [he, hu] using setUserFromSession_inv m u q h
  | logoutOp e =>
    unfold applyOp logout
    cases e
    · simp [clearAuthState, authInvariant, initialAuthState]
    · simpa using h
  | updateOp upd se now =>
    unfold applyOp updateProfile
    cases hu : m.authState.user with
    | none => simpa [hu] using h
    | some cur =>
      cases se with
      | some e => simpa [hu] using h
      | none =>
        simp only [authInvariant] at h ⊢
        simp [hu] at h
        simp [hu, h]
  | subscribeOp l => simpa [applyOp, subscribe, authInvariant] using h
  | unsubscribeOp l => simpa [applyOp, unsubscribe, authInvariant] using h

lemma runOps_inv (m : ManagerState) (ops : List Op) (h : authInvariant m.authState) :
    authInvariant ((runOps m ops).1).authState := by
  induction ops generalizing m with
  | nil => simpa [runOps] using h
  | cons op rest ih => simpa [runOps] using ih _ (applyOp_inv m op h)

/-- C1: `isAuthenticated == (user is present)` is an invariant of the
AuthState Manager: it holds in the initial state, it is preserved by
every operation (initial state, resolve from session, clear, login,
register, logout, updateProfile, subscribe, unsubscribe), and therefore
holds after any sequence of operations run from the initial state. -/
theorem C1_isAuthenticated_iff_user_present :
    authInvariant initialManager.authState ∧
    (∀ (m : ManagerState) (op : Op), authInvariant m.authState →
      authInvariant ((applyOp m op).1).authState) ∧
    (∀ ops : List Op, authInvariant ((runOps initialManager ops).1).authState) :=
  ⟨rfl, applyOp_inv, fun ops => runOps_inv initialManager ops rfl⟩

/-- C1 witness: the invariant, evaluated after a concrete login run from
the initial state. -/
theorem C1_isAuthenticated_iff_user_present_witness :
    authInvariant initialManager.authState ∧
    authInvariant ((runOps initialManager
      [Op.loginOp ⟨⟨some sessionUserNoMetaName⟩, none⟩ notFoundResult]).1).authState :=
  ⟨C1_isAuthenticated_iff_user_present.1,
   C1_isAuthenticated_iff_user_present.2.2
     [Op.loginOp ⟨⟨some sessionUserNoMetaName⟩, none⟩ notFoundResult]⟩

/-- C2: on a sign-in resolution where the Profile Store holds a row for
the session user (and on the identical resolution performed by a
successful login or register), the resulting state has
`isOnboardingComplete = true`, the user's id is the session user's id,
and the user's name is the profile's name, falling back to the session
email when the profile's name is empty. -/
theorem C2_profile_found_resolution (m : ManagerState) (u : SessionUser) (p : ProfileRecord)
    (hid : p.id = u.id) :
    (setUserFromSession m u ⟨some p, none⟩).state.authState.isOnboardingComplete = true ∧
    (setUserFromSession m u ⟨some p, none⟩).state.authState.isAuthenticated = true ∧
    (setUserFromSession m u ⟨some p, none⟩).state.authState.user.map AuthUser.id = some u.id ∧
    (p.full_name ≠ "" →
      (setUserFromSession m u ⟨some p, none⟩).state.authState.user.map AuthUser.name =
        some p.full_name) ∧
    (p.full_name = "" →
      (setUserFromSession m u ⟨some p, none⟩).state.authState.user.map AuthUser.name =
        some u.email) ∧
    (login m ⟨⟨some u⟩, none⟩ ⟨some p, none⟩ =
      { state := (setUserFromSession m u ⟨some p, none⟩).state
        deliveries := (setUserFromSession m u ⟨some p, none⟩).deliveries
        result := { success := true, error := none } }) ∧
    (∀ (d : RegisterData) (ie : Option SupaError),
      register m d ⟨⟨some u⟩, none⟩ ie ⟨some p, none⟩ =
        { state := (setUserFromSession m u ⟨some p, none⟩).state
          deliveries := (setUserFromSession m u ⟨some p, none⟩).deliveries
          result := { success := true, error := none } }) := by
  refine ⟨rfl, rfl, ?_, ?_, ?_, rfl, fun d ie => rfl⟩
  · simp [setUserFromSession, isFatalProfileError, authUserFromProfile, hid]
  · intro hn
    simp [setUserFromSession, isFatalProfileError, authUserFromProfile, strOr, hn,
      strOr_empty_right]
  · intro hn
    simp [setUserFromSession, isFatalProfileError, authUserFromProfile, hn, strOr_empty_right,
      strOr]
    exact fun h => h.symm

/-- C2 witness: a concrete resolution against a stored profile row. -/
theorem C2_profile_found_resolution_witness :
    ("u1" : String) = "u1" ∧
    (setUserFromSession initialManager sessionUserNoMetaName
      ⟨some { id := "u1", email := "a@x.com", full_name := "Ann", company := "ACME"
              position := "", phone := "", role := "admin", department := none
              avatar_url := none }, none⟩).state.authState.isOnboardingComplete = true :=
  ⟨rfl,
   (C2_profile_found_resolution initialManager sessionUserNoMetaName
     { id := "u1", email := "a@x.com", full_name := "Ann", company := "ACME"
       position := "", phone := "", role := "admin", department := none
       avatar_url := none } rfl).1⟩

/-- C3 counterexample: on a sign-in with no profile row, a session whose
metadata holds no name but whose email is `a@x.com` yields
`user.name = "a@x.com"`, not the empty string the claim's
metadata-only-with-empty-default derivation prescribes. -/
theorem C3_counterexample :
    (setUserFromSession initialManager sessionUserNoMetaName notFoundResult).state.authState.user.map
      AuthUser.name = some "a@x.com" ∧
    (setUserFromSession initialManager sessionUserNoMetaName notFoundResult).state.authState.user.map
      AuthUser.name ≠ some "" := by
  constructor
  · rfl
  · decide

/-- C3 (amended): on a sign-in resolution where the query answers with
the not-found code and no row, the state becomes authenticated with
`isOnboardingComplete = false` and a user derived from the session:
`name` from the metadata, falling back to the session email (and then the
empty string); company, position and phone from the metadata defaulting
to the empty string; `role = "user"`; `department` and `avatar_url`
null. -/
theorem C3_profile_missing_resolution (m : ManagerState) (u : SessionUser) (e : SupaError)
    (hc : e.code = "PGRST116") :
    (setUserFromSession m u ⟨none, some e⟩).state.authState.isOnboardingComplete = false ∧
    (setUserFromSession m u ⟨none, some e⟩).state.authState.isAuthenticated = true ∧
    (setUserFromSession m u ⟨none, some e⟩).state.authState.user = some
      { id := u.id
        email := u.email
        name := if u.user_metadata.full_name = "" then u.email else u.user_metadata.full_name
        company := u.user_metadata.company
        position := u.user_metadata.position
        phone := u.user_metadata.phone
        role := "user"
        department := none
        avatar_url := none } := by
  have hfatal : isFatalProfileError ⟨none, some e⟩ = false := by
    simp [isFatalProfileError, hc]
  refine ⟨?_, ?_, ?_⟩ <;>
    simp_all [setUserFromSession, authUserFromSession, strOr_empty_right, strOr, hfatal]

/-- C3 (amended) witness: evaluated at the concrete session user with
empty metadata name. -/
theorem C3_profile_missing_resolution_witness :
    ("PGRST116" : String) = "PGRST116" ∧
    (setUserFromSession initialManager sessionUserNoMetaName
      ⟨none, some { code := "PGRST116", message := "no rows returned" }⟩).state.authState.user = some
      { id := "u1", email := "a@x.com", name := "a@x.com", company := "", position := ""
        phone := "", role := "user", department := none, avatar_url := none } :=
  ⟨rfl,
   by
    have h := (C3_profile_missing_resolution initialManager sessionUserNoMetaName
      { code := "PGRST116", message := "no rows returned" } rfl).2.2
    simpa [sessionUserNoMetaName] using h⟩

/-- C4: when the profile query fails with any error whose code is not
the not-found code, the resolution aborts: the state is returned
untouched and no notification is delivered. -/
theorem C4_fatal_query_error_aborts (m : ManagerState) (u : SessionUser) (q : SingleResult)
    (e : SupaError) (he : q.error = some e) (hc : e.code ≠ "PGRST116") :
    setUserFromSession m u q = { state := m, deliveries := [] } := by
  have hfatal : isFatalProfileError q = true := by simp [isFatalProfileError, he, hc]
  simp [setUserFromSession, hfatal]

/-- C4 witness: a concrete fatal query answer leaves a concrete state
untouched. -/
theorem C4_fatal_query_error_aborts_witness :
    fatalQueryC8.error = some { code := "500", message := "internal" } ∧
    ("500" : String) ≠ "PGRST116" ∧
    setUserFromSession (subscribe initialManager 7) sessionUserNoMetaName fatalQueryC8 =
      { state := subscribe initialManager 7, deliveries := [] } :=
  ⟨rfl, by decide,
   C4_fatal_query_error_aborts (subscribe initialManager 7) sessionUserNoMetaName fatalQueryC8
     { code := "500", message := "internal" } rfl (by decide)⟩

/-- C5: on provider success, logout returns success, resets the state to
the empty default and notifies every subscriber with it; on provider
error, logout returns failure with the provider's message and the
manager state is exactly unchanged, with no notification. -/
theorem C5_logout_contract (m : ManagerState) :
    (logout m none =
      { state := { m with authState :=
          { user := none, isAuthenticated := false, isOnboardingComplete := false } }
        deliveries := m.listeners.map (fun l =>
          (l, { user := none, isAuthenticated := false, isOnboardingComplete := false }))
        result := { success := true, error := none } }) ∧
    (∀ e : SupaError, logout m (some e) =
      { state := m, deliveries := []
        result := { success := false, error := some e.message } }) := by
  exact ⟨rfl, fun e => rfl⟩

/-- C6: a successful updateProfile persists exactly the four fields
name, role, department, avatar_url — each taken from the update when
present (and non-falsy) and from the current user when absent — plus the
timestamp; locally it merges the entire partial update (every present
field of every AuthUser field) into the current user, stores the merged
user, notifies every subscriber with the new state, and returns the
merged user. -/
theorem C6_updateProfile_success_contract (cur : AuthUser) (b1 b2 : Bool) (ls : List Nat)
    (updates : AuthUserUpdate) (now : String) :
    (updateProfile ⟨⟨some cur, b1, b2⟩, ls⟩ updates none now =
      { state := ⟨⟨some (mergeUser cur updates), b1, b2⟩, ls⟩
        deliveries := ls.map (fun l => (l, ⟨some (mergeUser cur updates), b1, b2⟩))
        result := { success := true, data := some (mergeUser cur updates), error := none }
        payload := some (profileUpdatePayload cur updates now) }) ∧
    persistsStringField updates.name cur.name (profileUpdatePayload cur updates now).full_name ∧
    persistsStringField updates.role cur.role (profileUpdatePayload cur updates now).role ∧
    persistsNullableField updates.department cur.department
      (profileUpdatePayload cur updates now).department ∧
    persistsNullableField updates.avatar_url cur.avatar_url
      (profileUpdatePayload cur updates now).avatar_url ∧
    (profileUpdatePayload cur updates now).updated_at = now ∧
    mergesField updates.id cur.id (mergeUser cur updates).id ∧
    mergesField updates.email cur.email (mergeUser cur updates).email ∧
    mergesField updates.name cur.name (mergeUser cur updates).name ∧
    mergesField updates.company cur.company (mergeUser cur updates).company ∧
    mergesField updates.position cur.position (mergeUser cur updates).position ∧
    mergesField updates.phone cur.phone (mergeUser cur updates).phone ∧
    mergesField updates.role cur.role (mergeUser cur updates).role ∧
    mergesField updates.department cur.department (mergeUser cur updates).department ∧
    mergesField updates.avatar_url cur.avatar_url (mergeUser cur updates).avatar_url := by
  refine ⟨?_, ?_, ?_, ?_, ?_, rfl, ?_, ?_, ?_, ?_, ?_, ?_, ?_, ?_, ?_⟩
  · simp [updateProfile, notifyListeners, profileUpdatePayload, mergeUser]
  all_goals
    constructor
  all_goals
    first
      | (intro h; simp [profileUpdatePayload, mergeUser, updOrS, updOrOS, h])
      | (intro v hv hne; simp [profileUpdatePayload, updOrS, updOrOS, hv, hne])
      | (intro v hv; simp [mergeUser, hv])

/-- C6 witness: a concrete successful update of the role field. -/
theorem C6_updateProfile_success_contract_witness :
    (updateProfile ⟨⟨some curUserC10, true, true⟩, [4]⟩ { role := some "admin" } none "t1").result.data =
      some (mergeUser curUserC10 { role := some "admin" }) :=
  congrArg (fun o => o.result.data)
    (C6_updateProfile_success_contract curUserC10 true true [4] { role := some "admin" } "t1").1

/-- C7: updateProfile fails atomically: with no authenticated user it
returns failure with the no-user message, touches nothing and contacts
the store not at all; when the store update errors it returns failure
with the store's message, and the local state is unchanged with no
notification. -/
theorem C7_updateProfile_failure_atomic :
    (∀ (b1 b2 : Bool) (ls : List Nat) (updates : AuthUserUpdate) (se : Option SupaError)
        (now : String),
      updateProfile ⟨⟨none, b1, b2⟩, ls⟩ updates se now =
        { state := ⟨⟨none, b1, b2⟩, ls⟩, deliveries := []
          result := { success := false, data := none, error := some "ユーザーが見つかりません" }
          payload := none }) ∧
    (∀ (cur : AuthUser) (b1 b2 : Bool) (ls : List Nat) (updates : AuthUserUpdate) (e : SupaError)
        (now : String),
      updateProfile ⟨⟨some cur, b1, b2⟩, ls⟩ updates (some e) now =
        { state := ⟨⟨some cur, b1, b2⟩, ls⟩, deliveries := []
          result := { success := false, data := none, error := some e.message }
          payload := some (profileUpdatePayload cur updates now) }) := by
  exact ⟨fun b1 b2 ls updates se now => rfl, fun cur b1 b2 ls updates e now => rfl⟩

/-- C8 counterexample: a register call where sign-up succeeds and the
profile insert fails still returns success, but when the subsequent
profile resolution's query fails with a non-not-found error the state is
left untouched, so `isAuthenticated` stays `false` — against the claim
that it is `true` for every such call. -/
theorem C8_counterexample :
    (register initialManager regDataC8 ⟨⟨some sessionUserC8⟩, none⟩ (some insertErrorC8)
      fatalQueryC8).result.success = true ∧
    (register initialManager regDataC8 ⟨⟨some sessionUserC8⟩, none⟩ (some insertErrorC8)
      fatalQueryC8).state.authState.isAuthenticated = false :=
  ⟨rfl, rfl⟩

/-- C8 (amended): when sign-up succeeds with a user and the profile
insert fails, the overall result is still success — the insert outcome
affects nothing at all — and, provided the subsequent profile resolution
does not abort on a fatal query error, the resulting state has
`isAuthenticated = true`. -/
theorem C8_register_insert_failure_advisory (m : ManagerState) (d : RegisterData)
    (u : SessionUser) (ie : SupaError) (q : SingleResult)
    (hq : isFatalProfileError q = false) :
    (register m d ⟨⟨some u⟩, none⟩ (some ie) q).result = { success := true, error := none } ∧
    (register m d ⟨⟨some u⟩, none⟩ (some ie) q).state.authState.isAuthenticated = true ∧
    (∀ q2 : SingleResult, (register m d ⟨⟨some u⟩, none⟩ (some ie) q2).result.success = true) ∧
    (∀ ie2 : Option SupaError,
      register m d ⟨⟨some u⟩, none⟩ ie2 q = register m d ⟨⟨some u⟩, none⟩ (some ie) q) := by
  refine ⟨rfl, ?_, fun q2 => rfl, fun ie2 => rfl⟩
  show (setUserFromSession m u q).state.authState.isAuthenticated = true
  unfold setUserFromSession
  cases hd : q.data <;> simp [hq, hd]

/-- C8 (amended) witness: a concrete register whose insert fails but
whose resolution answers not-found still authenticates. -/
theorem C8_register_insert_failure_advisory_witness :
    isFatalProfileError notFoundResult = false ∧
    (register initialManager regDataC8 ⟨⟨some sessionUserC8⟩, none⟩ (some insertErrorC8)
      notFoundResult).state.authState.isAuthenticated = true :=
  ⟨by decide,
   (C8_register_insert_failure_advisory initialManager regDataC8 sessionUserC8 insertErrorC8
     notFoundResult (by decide)).2.1⟩

lemma setUserFromSession_listeners (m : ManagerState) (u : SessionUser) (q : SingleResult) :
    (setUserFromSession m u q).state.listeners = m.listeners := by
  unfold setUserFromSession
  by_cases hf : isFatalProfileError q = true
  · simp [hf]
  · cases hd : q.data <;> simp [hf, hd]

lemma setUserFromSession_deliveries (m : ManagerState) (u : SessionUser) (q : SingleResult) :
    (setUserFromSession m u q).deliveries = [] ∨
    (setUserFromSession m u q).deliveries =
      m.listeners.map (fun l => (l, (setUserFromSession m u q).state.authState)) := by
  unfold setUserFromSession
  by_cases hf : isFatalProfileError q = true
  · left; simp [hf]
  · right; cases hd : q.data <;> simp [hf, hd, notifyListeners]

lemma applyOp_listeners (m : ManagerState) (op : Op) :
    ((applyOp m op).1).listeners = m.listeners ∨
    (∃ l2, op = .subscribeOp l2 ∧ ((applyOp m op).1).listeners = m.listeners ++ [l2]) ∨
    (∃ l2, op = .unsubscribeOp l2 ∧
      ((applyOp m op).1).listeners = m.listeners.filter (fun x => x ≠ l2)) := by
  cases op with
  | resolve u q => exact Or.inl (setUserFromSession_listeners m u q)
  | clear => exact Or.inl rfl
  | loginOp resp q =>
    left
    cases he : resp.error with
    | some e => simp [applyOp, login, he]
    | none =>
      cases hu : resp.data.user with
      | none => simp [applyOp, login, he, hu]
      | some u => simpa [applyOp, login, he, hu] using setUserFromSession_listeners m u q
  | registerOp d resp ie q =>
    left
    cases he : resp.error with
    | some e => simp [applyOp, register, he]
    | none =>
      cases hu : resp.data.user with
      | none => simp [applyOp, register, he, hu]
      | some u => simpa [applyOp, register, he, hu] using setUserFromSession_listeners m u q
  | logoutOp e => cases e <;> exact Or.inl rfl
  | updateOp upd se now =>
    left
    cases hu : m.authState.user with
    | none => simp [applyOp, updateProfile, hu]
    | some cur => cases se <;> simp [applyOp, updateProfile, hu]
  | subscribeOp l => exact Or.inr (Or.inl ⟨l, rfl, rfl⟩)
  | unsubscribeOp l => exact Or.inr (Or.inr ⟨l, rfl, rfl⟩)

lemma applyOp_deliveries (m : ManagerState) (op : Op) :
    (applyOp m op).2 = [] ∨
    (applyOp m op).2 = m.listeners.map (fun l => (l, (applyOp m op).1.authState)) := by
  cases op with
  | resolve u q => exact setUserFromSession_deliveries m u q
  | clear => exact Or.inr rfl
  | loginOp resp q =>
    cases he : resp.error with
    | some e => left; simp [applyOp, login, he]
    | none =>
      cases hu : resp.data.user with
      | none => left; simp [applyOp, login, he, hu]
      | some u =>
        rcases setUserFromSession_deliveries m u q with h | h
        · left; simpa [applyOp, login, he, hu] using h
        · right; simpa [applyOp, login, he, hu] using h
  | registerOp d resp ie q =>
    cases he : resp.error with
    | some e => left; simp [applyOp, register, he]
    | none =>
      cases hu : resp.data.user with
      | none => left; simp [applyOp, register, he, hu]
      | some u =>
        rcases setUserFromSession_deliveries m u q with h | h
        · left; simpa [applyOp, register, he, hu] using h
        · right; simpa [applyOp, register, he, hu] using h
  | logoutOp e =>
    cases e with
    | none => exact Or.inr rfl
    | some err => exact Or.inl rfl
  | updateOp upd se now =>
    cases hu : m.authState.user with
    | none => left; simp [applyOp, updateProfile, hu]
    | some cur =>
      cases se with
      | some e => left; simp [applyOp, updateProfile, hu]
      | none => right; simp [applyOp, updateProfile, hu, notifyListeners]
  | subscribeOp l => exact Or.inl rfl
  | unsubscribeOp l => exact Or.inl rfl

lemma applyOp_keeps_out (m : ManagerState) (op : Op) (l : Nat)
    (hl : l ∉ m.listeners) (hop : subscribesListener l op = false) :
    l ∉ ((applyOp m op).1).listeners := by
  rcases applyOp_listeners m op with h | ⟨l2, hsub, h⟩ | ⟨l2, hsub, h⟩
  · rw [h]; exact hl
  · rw [h]
    have hne : l2 ≠ l := by
      subst hsub
      simpa [subscribesListener] using hop
    intro hx
    rcases List.mem_append.mp hx with h1 | h1
    · exact hl h1
    · exact hne (List.mem_singleton.mp h1).symm
  · rw [h]
    intro hx
    exact hl (List.mem_of_mem_filter hx)

lemma applyOp_no_delivery (m : ManagerState) (op : Op) (l : Nat)
    (hl : l ∉ m.listeners) :
    ∀ p ∈ (applyOp m op).2, p.1 ≠ l := by
  rcases applyOp_deliveries m op with h | h <;> rw [h]
  · simp
  · intro p hp
    rcases List.mem_map.mp hp with ⟨x, hx, rfl⟩
    intro hxl
    exact hl (hxl ▸ hx)

lemma runOps_no_delivery (m : ManagerState) (l : Nat) (ops : List Op)
    (hl : l ∉ m.listeners) (hops : ∀ op ∈ ops, subscribesListener l op = false) :
    ∀ p ∈ (runOps m ops).2, p.1 ≠ l := by
  induction ops generalizing m with
  | nil => simp [runOps]
  | cons op rest ih =>
    intro p hp
    rcases List.mem_append.mp (by simpa [runOps] using hp) with h | h
    · exact applyOp_no_delivery m op l hl p h
    · exact ih ((applyOp m op).1)
        (applyOp_keeps_out m op l hl (hops op (by simp)))
        (fun o ho => hops o (by simp [ho])) p h

lemma count_filter_ne (t : List Nat) (a x : Nat) (hx : x ≠ a) :
    (t.filter (fun y => y ≠ a)).count x = t.count x := by
  induction t with
  | nil => rfl
  | cons b u ih =>
    have ih2 : List.count x (List.filter (fun y => !decide (y = a)) u) = List.count x u := by
      simpa using ih
    by_cases hb : b = a
    · subst hb
      simp [List.filter_cons, List.count_cons, hx, ih2]
    · simp [List.filter_cons, List.count_cons, hb, ih2]

/-- C9: `subscribe` appends the listener to the list without touching the
state; its returned closure removes exactly that listener — after it
runs the listener is not in the list, the state is untouched and every
other listener keeps its registration multiplicity; each notification an
operation sends goes to the current subscriber list in registration
order; and after unsubscribing, the listener receives zero notifications
from any subsequent sequence of operations that does not re-subscribe
it. -/
theorem C9_subscribe_unsubscribe_contract :
    (∀ (m : ManagerState) (l : Nat),
      (subscribe m l).listeners = m.listeners ++ [l] ∧
      (subscribe m l).authState = m.authState) ∧
    (∀ (m : ManagerState) (l : Nat),
      l ∉ (unsubscribe m l).listeners ∧
      (unsubscribe m l).authState = m.authState ∧
      ∀ x : Nat, x ≠ l → ((unsubscribe m l).listeners.count x = m.listeners.count x)) ∧
    (∀ (m : ManagerState) (op : Op),
      (applyOp m op).2 = [] ∨
      (applyOp m op).2 = m.listeners.map (fun l => (l, (applyOp m op).1.authState))) ∧
    (∀ (m : ManagerState) (l : Nat) (ops : List Op),
      (∀ op ∈ ops, subscribesListener l op = false) →
      ∀ p ∈ (runOps (unsubscribe m l) ops).2, p.1 ≠ l) := by
  refine ⟨fun m l => ⟨rfl, rfl⟩, fun m l => ⟨?_, rfl, ?_⟩, applyOp_deliveries, ?_⟩
  · intro hx
    simpa [unsubscribe] using List.of_mem_filter hx
  · intro x hx
    exact count_filter_ne m.listeners l x hx
  · intro m l ops hops
    refine runOps_no_delivery (unsubscribe m l) l ops ?_ hops
    intro hx
    simpa [unsubscribe] using List.of_mem_filter hx

/-- C9 witness: after subscribing listeners 5 and 9 and unsubscribing 5,
a clear-state event delivers only to listener 9. -/
theorem C9_subscribe_unsubscribe_contract_witness :
    subscribesListener 5 Op.clear = false ∧ ((9, initialAuthState) : Nat × AuthState).1 ≠ 5 :=
  ⟨by decide,
   C9_subscribe_unsubscribe_contract.2.2.2 (subscribe (subscribe initialManager 5) 9) 5
     [Op.clear] (by decide) (9, initialAuthState) (by decide)⟩

/-- C10: a field present but falsy in the partial update (empty-string
name, explicit-null department or avatar_url) is persisted as the current
user's value, the persisted payload can never clear name, role,
department or avatar_url to empty or null, while the local merge does
apply the falsy value — so the returned user can differ from the
persisted record on these fields. -/
theorem C10_falsy_updates_not_persisted (cur : AuthUser) (updates : AuthUserUpdate)
    (now : String) (b1 b2 : Bool) (ls : List Nat) :
    (updates.name = some "" →
      (profileUpdatePayload cur updates now).full_name = cur.name ∧
      (mergeUser cur updates).name = "") ∧
    (updates.department = some none →
      (profileUpdatePayload cur updates now).department = cur.department ∧
      (mergeUser cur updates).department = none) ∧
    (updates.avatar_url = some none →
      (profileUpdatePayload cur updates now).avatar_url = cur.avatar_url ∧
      (mergeUser cur updates).avatar_url = none) ∧
    ((profileUpdatePayload cur updates now).full_name = "" → cur.name = "") ∧
    ((profileUpdatePayload cur updates now).role = "" → cur.role = "") ∧
    ((profileUpdatePayload cur updates now).department = none → cur.department = none) ∧
    ((profileUpdatePayload cur updates now).avatar_url = none → cur.avatar_url = none) ∧
    (updateProfile ⟨⟨some cur, b1, b2⟩, ls⟩ updates none now).result.data =
      some (mergeUser cur updates) ∧
    (updateProfile ⟨⟨some cur, b1, b2⟩, ls⟩ updates none now).payload =
      some (profileUpdatePayload cur updates now) := by
  refine ⟨?_, ?_, ?_, ?_, ?_, ?_, ?_, rfl, rfl⟩
  · intro h; exact ⟨by simp [profileUpdatePayload, updOrS, h], by simp [mergeUser, h]⟩
  · intro h; exact ⟨by simp [profileUpdatePayload, updOrOS, h], by simp [mergeUser, h]⟩
  · intro h; exact ⟨by simp [profileUpdatePayload, updOrOS, h], by simp [mergeUser, h]⟩
  · cases hn : updates.name with
    | none => simp [profileUpdatePayload, updOrS, hn]
    | some s => by_cases hs : s = "" <;> simp [profileUpdatePayload, updOrS, hn, hs]
  · cases hn : updates.role with
    | none => simp [profileUpdatePayload, updOrS, hn]
    | some s => by_cases hs : s = "" <;> simp [profileUpdatePayload, updOrS, hn, hs]
  · cases hn : updates.department with
    | none => simp [profileUpdatePayload, updOrOS, hn]
    | some o =>
      cases o with
      | none => simp [profileUpdatePayload, updOrOS, hn]
      | some s => by_cases hs : s = "" <;> simp [profileUpdatePayload, updOrOS, hn, hs]
  · cases hn : updates.avatar_url with
    | none => simp [profileUpdatePayload, updOrOS, hn]
    | some o =>
      cases o with
      | none => simp [profileUpdatePayload, updOrOS, hn]
      | some s => by_cases hs : s = "" <;> simp [profileUpdatePayload, updOrOS, hn, hs]

/-- C10 witness: updating Ann with an empty name and null department
persists her current values while the merged local user carries the
falsy ones. -/
theorem C10_falsy_updates_not_persisted_witness :
    falsyUpdatesC10.name = some "" ∧
    (profileUpdatePayload curUserC10 falsyUpdatesC10 "t2").full_name = "Ann" ∧
    (mergeUser curUserC10 falsyUpdatesC10).name = "" :=
  ⟨rfl,
   ((C10_falsy_updates_not_persisted curUserC10 falsyUpdatesC10 "t2" true true []).1 rfl).1,
   ((C10_falsy_updates_not_persisted curUserC10 falsyUpdatesC10 "t2" true true []).1 rfl).2⟩

end SupabaseAuth
